import Mathlib

/-!
Shallow embedding of the cubecl tiling-2d matmul launch planner
(crates/cubecl-linalg/src/matmul/kernels/tiling2d/launch.rs), the IR element
and binding model (crates/cubecl-core/src/ir/shader.rs), and the convolution
launch error taxonomy (crates/cubecl-linalg/src/convolution/error.rs).

Stateful/effectful code is embedded as pure functions returning an outcome
together with an explicit trace of the side effects performed (layout
classification queries, contiguous-copy normalizations, kernel dispatches).
External collaborators (the stride classifier, the normalization routine,
hardware capability queries, and the cube-count/cube-dim computations that
live in other crates of the repository) are supplied as fields of an
environment record, since the planner only observes their results.
-/

/-- Matrix layout classification result, as consumed by the planner
(tensor::MatrixLayout): `Contiguous`, `MildlyPermuted { transposed, batch_swap }`,
or `HighlyPermuted`. -/
inductive MatrixLayout
  | Contiguous
  | MildlyPermuted (transposed : Bool) (batch_swap : Bool)
  | HighlyPermuted
deriving DecidableEq

/-- A borrowed tensor handle (TensorHandleRef): an opaque device-buffer id
together with strides and shape. -/
structure TensorHandleRef where
  handle : Nat
  strides : List Nat
  shape : List Nat
deriving DecidableEq

/-- Modelled from the spec: the tuning configuration (Tiling2dConfig, declared
in tiling2d/config.rs which is outside src) with the three block-size fields
the launch planner reads. -/
structure Tiling2dConfig where
  block_size_m : Nat
  block_size_n : Nat
  block_size_k : Nat
deriving DecidableEq

/-- Cube count: either a static 3-tuple grid or a dynamic (handle-backed)
grid, as matched by the planner. -/
inductive CubeCount
  | Static (x y z : Nat)
  | Dynamic
deriving DecidableEq

/-- Thread-block dimensions (CubeDim from cubecl-core ir/shader.rs). -/
structure CubeDim where
  x : Nat
  y : Nat
  z : Nat
deriving DecidableEq

/-- Modelled from the spec: the availability error enum
(MatmulAvailabilityError, declared outside src); only the constructor used by
launch.rs is modelled, carrying the offending cube count. -/
inductive MatmulAvailabilityError
  | CubeCountTooBig (count : CubeCount)
deriving DecidableEq

/-- Modelled from the spec: the matmul launch error enum (MatmulLaunchError,
declared outside src); only the constructor used by launch.rs is modelled. -/
inductive MatmulLaunchError
  | Unavailable (err : MatmulAvailabilityError)
deriving DecidableEq

/-- Modelled from the spec: step 7 bundles the block sizes, the computed
m, k, n and the two transposition flags into the launch-time configuration
(CubeTiling2dConfig, declared outside src). -/
structure CubeTiling2dConfig where
  config : Tiling2dConfig
  m : Nat
  k : Nat
  n : Nat
  lhs_transposed : Bool
  rhs_transposed : Bool
deriving DecidableEq

/-- Constructor mirroring CubeTiling2dConfig::new(&config, m, k, n,
lhs_transposed, rhs_transposed). -/
def CubeTiling2dConfig.new (config : Tiling2dConfig) (m k n : Nat)
    (lhs_transposed rhs_transposed : Bool) : CubeTiling2dConfig :=
  ⟨config, m, k, n, lhs_transposed, rhs_transposed⟩

/-- A tensor argument as built by TensorArg::from_raw_parts(handle, strides,
shape, vectorization). -/
structure TensorArg where
  handle : Nat
  strides : List Nat
  shape : List Nat
  vectorization : Nat
deriving DecidableEq

/-- Constructor mirroring TensorArg::from_raw_parts. -/
def TensorArg.from_raw_parts (handle : Nat) (strides shape : List Nat)
    (vectorization : Nat) : TensorArg :=
  ⟨handle, strides, shape, vectorization⟩

/-- Observable side effects of one planner call, in program order: a stride
classification query (matrix_layout), a contiguous-copy normalization
(into_contiguous, identified by the strides of the tensor being copied), or a
kernel dispatch through the unchecked launch primitive. -/
inductive LaunchEffect
  | classify (strides : List Nat)
  | normalize (strides : List Nat)
  | launch (count : CubeCount) (dim : CubeDim)
      (lhsArg rhsArg outArg : TensorArg) (cfg : CubeTiling2dConfig)
deriving DecidableEq

/-- Whether an effect is a dispatch through the unchecked launch primitive. -/
def LaunchEffect.isLaunch : LaunchEffect → Bool
  | .launch _ _ _ _ _ _ => true
  | _ => false

/-- Outcome of a planner call: a fatal abort carrying the panic message, a
structured recoverable error, or success. -/
inductive PlanOutcome
  | panic (msg : String)
  | err (e : MatmulLaunchError)
  | ok
deriving DecidableEq

/-- The planner's environment: the external collaborators and hardware
capability queries it consults. `matrixLayout` is the stride classifier,
`intoContiguous` the normalization routine (returning the fresh copy),
`elemSize` is N::size().unwrap(), `maxSharedMemorySize` comes from
hardware_properties(), `maxCubeCount` is R::max_cube_count(), and
`tiling2dCubeCount` / `tiling2dCubeDim` are the grid/block computations from
tiling2d/config.rs (outside src). -/
structure Env where
  matrixLayout : List Nat → MatrixLayout
  intoContiguous : TensorHandleRef → TensorHandleRef
  elemSize : Nat
  maxSharedMemorySize : Nat
  maxCubeCount : Nat × Nat × Nat
  tiling2dCubeCount : List Nat → Tiling2dConfig → CubeCount
  tiling2dCubeDim : Tiling2dConfig → CubeDim

/-- The vectorization closure of matmul_tiling_2d_ref_no_check: the first of
[4, 2] that evenly divides the axis length, defaulting to 1. -/
def vectorization (shape : Nat) : Nat :=
  ((([4, 2] : List Nat).filter (fun v => shape % v == 0)).head?).getD 1

/-- The check_layout closure of matmul_tiling_2d_ref_no_check: `some flag`
with the transposition flag for usable layouts, `none` for the panic branch
on HighlyPermuted. -/
def no_check_check_layout : MatrixLayout → Option Bool
  | .Contiguous => some false
  | .MildlyPermuted transposed _ => some transposed
  | .HighlyPermuted => none

/-- The check_layout closure of matmul_tiling_2d_ref: true iff the operand is
directly usable (Contiguous or MildlyPermuted), false for HighlyPermuted. -/
def ref_check_layout (env : Env) (tensor : TensorHandleRef) : Bool :=
  match env.matrixLayout tensor.strides with
  | .Contiguous => true
  | .MildlyPermuted _ _ => true
  | .HighlyPermuted => false

/-- Embedding of matmul_tiling_2d_ref_no_check. Array indexing out of bounds
(rank below 2 or shapes shorter than the stride rank) is the corresponding
panic; otherwise the function computes m, k, n, the transposition flags (with
the HighlyPermuted panic), the vectorizations, the cube-count capacity check,
and finally the dispatch. -/
def matmul_tiling_2d_ref_no_check (env : Env) (lhs rhs out : TensorHandleRef)
    (config : Tiling2dConfig) : PlanOutcome × List LaunchEffect :=
  let rank := lhs.strides.length
  if rank < 2 ∨ lhs.shape.length ≤ rank - 2 ∨ lhs.shape.length ≤ rank - 1 ∨
      rhs.shape.length ≤ rank - 1 then
    (.panic "index out of bounds", [])
  else
    let m := lhs.shape.getD (rank - 2) 0
    let k := lhs.shape.getD (rank - 1) 0
    let n := rhs.shape.getD (rank - 1) 0
    match no_check_check_layout (env.matrixLayout lhs.strides) with
    | none => (.panic "Can\x27t run on highly permuted tensor", [.classify lhs.strides])
    | some lhs_transposed =>
      match no_check_check_layout (env.matrixLayout rhs.strides) with
      | none =>
          (.panic "Can\x27t run on highly permuted tensor",
           [.classify lhs.strides, .classify rhs.strides])
      | some rhs_transposed =>
        let lhs_vectorization :=
          match lhs_transposed with
          | true => vectorization m
          | false => 1
        let rhs_vectorization :=
          match rhs_transposed with
          | true => 1
          | false => vectorization n
        let out_vectorization := vectorization n
        let cube_count := env.tiling2dCubeCount out.shape config
        let exceeded :=
          match cube_count with
          | .Static x y z =>
              decide (x > env.maxCubeCount.1) || decide (y > env.maxCubeCount.2.1) ||
                decide (z > env.maxCubeCount.2.2)
          | .Dynamic => false
        if exceeded then
          (.err (.Unavailable (.CubeCountTooBig cube_count)),
           [.classify lhs.strides, .classify rhs.strides])
        else
          let cube_dim := env.tiling2dCubeDim config
          let cube_config := CubeTiling2dConfig.new config m k n lhs_transposed rhs_transposed
          (.ok,
           [.classify lhs.strides, .classify rhs.strides,
            .launch cube_count cube_dim
              (TensorArg.from_raw_parts lhs.handle lhs.strides lhs.shape lhs_vectorization)
              (TensorArg.from_raw_parts rhs.handle rhs.strides rhs.shape rhs_vectorization)
              (TensorArg.from_raw_parts out.handle out.strides out.shape out_vectorization)
              cube_config])

/-- Embedding of matmul_tiling_2d_ref: the shared-memory assertion first
(its failure is the panic with the source message and an empty effect trace),
then classification of both operands, then the four-way match dispatching to
matmul_tiling_2d_ref_no_check with each HighlyPermuted operand replaced by
its into_contiguous copy. -/
def matmul_tiling_2d_ref (env : Env) (lhs rhs out : TensorHandleRef)
    (config : Tiling2dConfig) : PlanOutcome × List LaunchEffect :=
  if env.elemSize * config.block_size_k * max config.block_size_m config.block_size_n ≤
      env.maxSharedMemorySize then
    let lhs_correct_layout := ref_check_layout env lhs
    let rhs_correct_layout := ref_check_layout env rhs
    let pre : List LaunchEffect := [.classify lhs.strides, .classify rhs.strides]
    match lhs_correct_layout, rhs_correct_layout with
    | true, true =>
        let r := matmul_tiling_2d_ref_no_check env lhs rhs out config
        (r.1, pre ++ r.2)
    | true, false =>
        let rhs2 := env.intoContiguous rhs
        let r := matmul_tiling_2d_ref_no_check env lhs rhs2 out config
        (r.1, pre ++ [.normalize rhs.strides] ++ r.2)
    | false, true =>
        let lhs2 := env.intoContiguous lhs
        let r := matmul_tiling_2d_ref_no_check env lhs2 rhs out config
        (r.1, pre ++ [.normalize lhs.strides] ++ r.2)
    | false, false =>
        let lhs2 := env.intoContiguous lhs
        let rhs2 := env.intoContiguous rhs
        let r := matmul_tiling_2d_ref_no_check env lhs2 rhs2 out config
        (r.1, pre ++ [.normalize lhs.strides, .normalize rhs.strides] ++ r.2)
  else
    (.panic "Shared memory limit will be busted. ", [])

/-- The per-operand layout-repair selection described by the spec: keep the
operand when its classification is directly usable, replace it by the
into_contiguous copy when it is HighlyPermuted. Stated from the spec wording
for comparison against matmul_tiling_2d_ref. -/
def repairOperand (env : Env) (t : TensorHandleRef) : TensorHandleRef :=
  match env.matrixLayout t.strides with
  | .HighlyPermuted => env.intoContiguous t
  | _ => t

/-- The normalization effects produced for one operand by layout repair. -/
def normalizeTrace (env : Env) (t : TensorHandleRef) : List LaunchEffect :=
  match env.matrixLayout t.strides with
  | .HighlyPermuted => [.normalize t.strides]
  | _ => []

/-- Operand location (ir/shader.rs Location): global device memory or
on-chip cube-scoped memory. -/
inductive Location
  | Storage
  | Cube
deriving DecidableEq

/-- Operand visibility (ir/shader.rs Visibility). -/
inductive Visibility
  | Read
  | ReadWrite
deriving DecidableEq

/-- Float element kinds (ir/shader.rs FloatKind). -/
inductive FloatKind
  | F16
  | BF16
  | F32
  | F64
deriving DecidableEq

/-- Integer element kinds (ir/shader.rs IntKind). -/
inductive IntKind
  | I32
  | I64
deriving DecidableEq

/-- Host i64 scalar type, modelled as unbounded integers (inputs range over
the i64 values). -/
abbrev I64 : Type := Int

/-- Host u64 scalar type, modelled as naturals (inputs range over the u64
values). -/
abbrev U64 : Type := Nat

/-- Host bool scalar type. -/
abbrev HostBool : Type := Bool

/-- Tagged element type (ir/shader.rs Elem). -/
inductive Elem
  | Float (kind : FloatKind)
  | Int (kind : IntKind)
  | UInt
  | Bool
deriving DecidableEq

/-- Host f64 semantics, abstracted: the truncating/saturating casts and the
strict comparison with zero that the constant constructors apply to an f64
literal. The carrier F stands for the host f64 type; floating-point value
semantics are not modelled, only the operations the source invokes. -/
structure F64Cast (F : Type) where
  asI64 : F → Int
  asU64 : F → Nat
  gtZero : F → Bool
  ofI64 : Int → F
  ofU64 : Nat → F
  ofU32 : Nat → F

/-- Modelled from the spec: ConstantScalarValue (declared in another file of
cubecl-core, outside src) is the tagged union mirroring Elem that holds a
concrete literal. The f64 payload type is the abstract carrier F. -/
inductive ConstantScalarValue (F : Type)
  | Float (value : F) (kind : FloatKind)
  | Int (value : Int) (kind : IntKind)
  | UInt (value : Nat)
  | Bool (value : Bool)

/-- Modelled from the spec: of the IR Variable enum (declared outside src)
only the ConstantScalar constructor is produced by the constant
constructors. -/
inductive Variable (F : Type)
  | ConstantScalar (value : ConstantScalarValue F)

/-- The element tag carried by a constant scalar value, as an Elem. -/
def ConstantScalarValue.tag {F : Type} : ConstantScalarValue F → Elem
  | .Float _ kind => .Float kind
  | .Int _ kind => .Int kind
  | .UInt _ => .UInt
  | .Bool _ => .Bool

/-- The tag of the constant held by a ConstantScalar variable. -/
def Variable.tag {F : Type} : Variable F → Elem
  | .ConstantScalar v => v.tag

/-- Embedding of Elem::constant_from_f64: construct a constant tagged with
self's element kind from an f64 host value, applying the source's casts
(val as i64, val as u64, val > 0.0). -/
def Elem.constant_from_f64 {F : Type} (C : F64Cast F) (e : Elem) (val : F) : Variable F :=
  .ConstantScalar
    (match e with
     | .Float kind => .Float val kind
     | .Int kind => .Int (C.asI64 val) kind
     | .UInt => .UInt (C.asU64 val)
     | .Bool => .Bool (C.gtZero val))

/-- Embedding of Elem::constant_from_i64; the i64→u64 cast wraps modulo 2^64
and the Bool branch is the strict test val > 0. -/
def Elem.constant_from_i64 {F : Type} (C : F64Cast F) (e : Elem) (val : I64) : Variable F :=
  .ConstantScalar
    (match e with
     | .Float kind => .Float (C.ofI64 val) kind
     | .Int kind => .Int val kind
     | .UInt => .UInt (val % (2 ^ 64 : I64)).toNat
     | .Bool => .Bool (decide (val > 0)))

/-- Embedding of Elem::constant_from_u64; the u64→i64 cast reinterprets in
two's complement and the Bool branch is the strict test val > 0. -/
def Elem.constant_from_u64 {F : Type} (C : F64Cast F) (e : Elem) (val : U64) : Variable F :=
  .ConstantScalar
    (match e with
     | .Float kind => .Float (C.ofU64 val) kind
     | .Int kind =>
         .Int (if val < 2 ^ 63 then (val : I64) else (val : I64) - 2 ^ 64) kind
     | .UInt => .UInt val
     | .Bool => .Bool (decide (val > 0)))

/-- Embedding of Elem::constant_from_bool; bool→numeric maps true to 1 and
false to 0. -/
def Elem.constant_from_bool {F : Type} (C : F64Cast F) (e : Elem) (val : HostBool) : Variable F :=
  .ConstantScalar
    (match e with
     | .Float kind => .Float (C.ofU32 (if val then 1 else 0)) kind
     | .Int kind => .Int (if val then 1 else 0) kind
     | .UInt => .UInt (if val then 1 else 0)
     | .Bool => .Bool val)

/-- A vectorized item descriptor (ir/shader.rs Item). -/
structure Item where
  elem : Elem
  vectorization : Nat
deriving DecidableEq

/-- Item::new: a new item without vectorization. -/
def Item.new (elem : Elem) : Item :=
  ⟨elem, 1⟩

/-- Item::vectorized: a new item with an explicit vectorization width. -/
def Item.vectorized (elem : Elem) (vectorization : Nat) : Item :=
  ⟨elem, vectorization⟩

/-- A kernel operand binding (ir/shader.rs Binding). -/
structure Binding where
  location : Location
  visibility : Visibility
  item : Item
  size : Option Nat
deriving DecidableEq

/-- The kernel definition envelope (ir/shader.rs KernelDefinition),
parameterized by the type S of the opaque instruction scope (ir Scope is
declared outside src). -/
structure KernelDefinition (S : Type) where
  inputs : List Binding
  outputs : List Binding
  named : List (String × Binding)
  cube_dim : CubeDim
  body : S

/-- Modelled from the spec: the generic autotune failure report
(AutotuneError, declared in cubecl-core tune, outside src); the conversion in
error.rs produces its Unknown constructor carrying a string. -/
inductive AutotuneError
  | Unknown (msg : String)
deriving DecidableEq

/-- The convolution launch error taxonomy (convolution/error.rs
ConvLaunchError), parameterized by the wrapped matmul launch error type M
since MatmulLaunchError's own Debug rendering is declared outside src. -/
inductive ConvLaunchError (M : Type)
  | Matmul (err : M)
  | Groups (groups : Nat)
  | CubeCountTooLarge
  | Unknown

/-- Embedding of the Debug impl for ConvLaunchError: the Matmul variant
delegates to the wrapped error's debug rendering mdbg; Groups uses writeln!
(hence the trailing newline); the other two variants are fixed strings. -/
def ConvLaunchError.debugFmt {M : Type} (mdbg : M → String) : ConvLaunchError M → String
  | .Matmul err => mdbg err
  | .Groups groups =>
      "Unable to launch matmul because groups must be one, is actually " ++
        toString groups ++ "\n"
  | .CubeCountTooLarge => "The cube count is larger than the max supported."
  | .Unknown => "Unknown"

/-- Embedding of the Into AutotuneError impl for ConvLaunchError:
AutotuneError::Unknown(format of the debug rendering of self). -/
def ConvLaunchError.intoAutotune {M : Type} (mdbg : M → String)
    (e : ConvLaunchError M) : AutotuneError :=
  .Unknown (ConvLaunchError.debugFmt mdbg e)

/-- A wire token of the serialization model: the serde-derived codecs are
generated code outside src, so the encoding is modelled from the spec as a
field-ordered token stream over the declared struct/enum shapes. -/
inductive Tok
  | nat (n : Nat)
  | str (s : String)
deriving DecidableEq

/-- Encode a Location as its variant index. -/
def encLocation : Location → List Tok
  | .Storage => [.nat 0]
  | .Cube => [.nat 1]

/-- Decode a Location, returning the remaining stream. -/
def decLocation : List Tok → Option (Location × List Tok)
  | .nat 0 :: rest => some (.Storage, rest)
  | .nat 1 :: rest => some (.Cube, rest)
  | _ => none

/-- Encode a Visibility as its variant index. -/
def encVisibility : Visibility → List Tok
  | .Read => [.nat 0]
  | .ReadWrite => [.nat 1]

/-- Decode a Visibility. -/
def decVisibility : List Tok → Option (Visibility × List Tok)
  | .nat 0 :: rest => some (.Read, rest)
  | .nat 1 :: rest => some (.ReadWrite, rest)
  | _ => none

/-- Encode a FloatKind as its variant index. -/
def encFloatKind : FloatKind → List Tok
  | .F16 => [.nat 0]
  | .BF16 => [.nat 1]
  | .F32 => [.nat 2]
  | .F64 => [.nat 3]

/-- Decode a FloatKind. -/
def decFloatKind : List Tok → Option (FloatKind × List Tok)
  | .nat 0 :: rest => some (.F16, rest)
  | .nat 1 :: rest => some (.BF16, rest)
  | .nat 2 :: rest => some (.F32, rest)
  | .nat 3 :: rest => some (.F64, rest)
  | _ => none

/-- Encode an IntKind as its variant index. -/
def encIntKind : IntKind → List Tok
  | .I32 => [.nat 0]
  | .I64 => [.nat 1]

/-- Decode an IntKind. -/
def decIntKind : List Tok → Option (IntKind × List Tok)
  | .nat 0 :: rest => some (.I32, rest)
  | .nat 1 :: rest => some (.I64, rest)
  | _ => none

/-- Encode an Elem as its variant index followed by its payload. -/
def encElem : Elem → List Tok
  | .Float kind => .nat 0 :: encFloatKind kind
  | .Int kind => .nat 1 :: encIntKind kind
  | .UInt => [.nat 2]
  | .Bool => [.nat 3]

/-- Decode an Elem. -/
def decElem : List Tok → Option (Elem × List Tok)
  | .nat 0 :: rest =>
      match decFloatKind rest with
      | some (kind, r) => some (.Float kind, r)
      | none => none
  | .nat 1 :: rest =>
      match decIntKind rest with
      | some (kind, r) => some (.Int kind, r)
      | none => none
  | .nat 2 :: rest => some (.UInt, rest)
  | .nat 3 :: rest => some (.Bool, rest)
  | _ => none

/-- Encode an Item field by field (elem, vectorization). -/
def encItem (i : Item) : List Tok :=
  encElem i.elem ++ [.nat i.vectorization]

/-- Decode an Item. -/
def decItem (toks : List Tok) : Option (Item × List Tok) :=
  match decElem toks with
  | some (e, .nat v :: rest) => some (⟨e, v⟩, rest)
  | _ => none

/-- Encode an optional size (the Binding size field). -/
def encOptNat : Option Nat → List Tok
  | none => [.nat 0]
  | some n => [.nat 1, .nat n]

/-- Decode an optional size. -/
def decOptNat : List Tok → Option (Option Nat × List Tok)
  | .nat 0 :: rest => some (none, rest)
  | .nat 1 :: .nat n :: rest => some (some n, rest)
  | _ => none

/-- Encode a Binding field by field (location, visibility, item, size). -/
def encBinding (b : Binding) : List Tok :=
  encLocation b.location ++ encVisibility b.visibility ++ encItem b.item ++ encOptNat b.size

/-- Decode a Binding. -/
def decBinding (toks : List Tok) : Option (Binding × List Tok) :=
  match decLocation toks with
  | some (loc, r1) =>
      match decVisibility r1 with
      | some (vis, r2) =>
          match decItem r2 with
          | some (it, r3) =>
              match decOptNat r3 with
              | some (sz, r4) => some (⟨loc, vis, it, sz⟩, r4)
              | none => none
          | none => none
      | none => none
  | none => none

/-- Encode a named-binding entry (name, binding). -/
def encNamed (p : String × Binding) : List Tok :=
  .str p.1 :: encBinding p.2

/-- Decode a named-binding entry. -/
def decNamed : List Tok → Option ((String × Binding) × List Tok)
  | .str s :: rest =>
      match decBinding rest with
      | some (b, r) => some ((s, b), r)
      | none => none
  | _ => none

/-- Concatenate the element encodings of a list. -/
def encListElems {α : Type} (enc : α → List Tok) : List α → List Tok
  | [] => []
  | a :: l => enc a ++ encListElems enc l

/-- Encode a list as its length followed by its element encodings. -/
def encList {α : Type} (enc : α → List Tok) (l : List α) : List Tok :=
  .nat l.length :: encListElems enc l

/-- Decode exactly n list elements. -/
def decListN {α : Type} (dec : List Tok → Option (α × List Tok)) :
    Nat → List Tok → Option (List α × List Tok)
  | 0, rest => some ([], rest)
  | n + 1, rest =>
      match dec rest with
      | some (a, r1) =>
          match decListN dec n r1 with
          | some (l, r2) => some (a :: l, r2)
          | none => none
      | none => none

/-- Decode a length-prefixed list. -/
def decList {α : Type} (dec : List Tok → Option (α × List Tok)) :
    List Tok → Option (List α × List Tok)
  | .nat n :: rest => decListN dec n rest
  | _ => none

/-- Encode a CubeDim field by field. -/
def encCubeDim (d : CubeDim) : List Tok :=
  [.nat d.x, .nat d.y, .nat d.z]

/-- Decode a CubeDim. -/
def decCubeDim : List Tok → Option (CubeDim × List Tok)
  | .nat x :: .nat y :: .nat z :: rest => some (⟨x, y, z⟩, rest)
  | _ => none

/-- Encode a KernelDefinition field by field (inputs, outputs, named,
cube_dim, body), the body through the supplied scope encoder. -/
def encKernelDefinition {S : Type} (senc : S → List Tok) (d : KernelDefinition S) : List Tok :=
  encList encBinding d.inputs ++ encList encBinding d.outputs ++
    encList encNamed d.named ++ encCubeDim d.cube_dim ++ senc d.body

/-- Decode a KernelDefinition, the body through the supplied scope decoder. -/
def decKernelDefinition {S : Type} (sdec : List Tok → Option (S × List Tok))
    (toks : List Tok) : Option (KernelDefinition S × List Tok) :=
  match decList decBinding toks with
  | some (ins, r1) =>
      match decList decBinding r1 with
      | some (outs, r2) =>
          match decList decNamed r2 with
          | some (nm, r3) =>
              match decCubeDim r3 with
              | some (cd, r4) =>
                  match sdec r4 with
                  | some (b, r5) => some (⟨ins, outs, nm, cd, b⟩, r5)
                  | none => none
              | none => none
          | none => none
      | none => none
  | none => none

/-- Concrete fixture: a 4x4 row-major tensor. -/
def tLhs : TensorHandleRef := ⟨1, [4, 1], [4, 4]⟩

/-- Concrete fixture: a second 4x4 row-major tensor. -/
def tRhs : TensorHandleRef := ⟨2, [4, 1], [4, 4]⟩

/-- Concrete fixture: the 4x4 output tensor. -/
def tOut : TensorHandleRef := ⟨3, [4, 1], [4, 4]⟩

/-- Concrete fixture: a 4x4 tensor with transposed (column-major) strides. -/
def tLhsT : TensorHandleRef := ⟨4, [1, 4], [4, 4]⟩

/-- Concrete fixture: a tensor whose strides classify as highly permuted
under the fixture classifier. -/
def tBad : TensorHandleRef := ⟨5, [13, 7], [4, 4]⟩

/-- Concrete fixture: a tuning configuration with all block sizes 8. -/
def cfg0 : Tiling2dConfig := ⟨8, 8, 8⟩

/-- Concrete fixture environment: strides [1, 4] classify as mildly permuted
transposed, strides [13, 7] as highly permuted, everything else contiguous;
normalization bumps the handle and makes the copy row-major contiguous. -/
def envFix : Env where
  matrixLayout := fun s =>
    if s = [1, 4] then MatrixLayout.MildlyPermuted true false
    else if s = [13, 7] then MatrixLayout.HighlyPermuted
    else MatrixLayout.Contiguous
  intoContiguous := fun t => ⟨t.handle + 100, [4, 1], t.shape⟩
  elemSize := 4
  maxSharedMemorySize := 8192
  maxCubeCount := (100, 100, 100)
  tiling2dCubeCount := fun _ _ => CubeCount.Static 1 1 1
  tiling2dCubeDim := fun _ => ⟨16, 16, 1⟩

/-- Concrete fixture environment whose shared-memory capacity is too small
for cfg0 with element size 4. -/
def envSmallMem : Env :=
  { envFix with maxSharedMemorySize := 10 }

/-- Concrete fixture environment whose computed cube count exceeds the
per-axis hardware maximum on the x axis. -/
def envBigGrid : Env :=
  { envFix with tiling2dCubeCount := fun _ _ => CubeCount.Static 200 1 1 }

/-- Concrete fixture: a kernel definition with one binding of each
location/visibility combination and one named binding. -/
def dFix : KernelDefinition Unit :=
  { inputs := [⟨Location.Storage, Visibility.Read, ⟨Elem.Float FloatKind.F32, 4⟩, none⟩,
               ⟨Location.Storage, Visibility.ReadWrite, ⟨Elem.Int IntKind.I32, 1⟩, some 16⟩],
    outputs := [⟨Location.Cube, Visibility.Read, ⟨Elem.UInt, 2⟩, some 8⟩],
    named := [("info", ⟨Location.Cube, Visibility.ReadWrite, ⟨Elem.Bool, 1⟩, none⟩)],
    cube_dim := ⟨16, 16, 1⟩,
    body := () }

/-- Concrete fixture: f64 host semantics instantiated with an integer
carrier, for evaluating the constant constructors at concrete inputs. -/
def CFix : F64Cast Int where
  asI64 := fun v => v
  asU64 := Int.toNat
  gtZero := fun v => decide (0 < v)
  ofI64 := fun v => v
  ofU64 := Int.ofNat
  ofU32 := Int.ofNat

/-- Concrete fixture: a debug rendering for the wrapped matmul launch
error. -/
def mdbgFix : MatmulLaunchError → String :=
  fun _ => "matmul launch error"

/-- Helper: matmul_tiling_2d_ref_no_check never produces the shared-memory
assertion panic; its only panics are the index and HighlyPermuted ones. -/
theorem no_check_outcome_ne_shared_panic (env : Env) (lhs rhs out : TensorHandleRef)
    (cfg : Tiling2dConfig) :
    (matmul_tiling_2d_ref_no_check env lhs rhs out cfg).1 ≠
      PlanOutcome.panic "Shared memory limit will be busted. " := by
  unfold matmul_tiling_2d_ref_no_check
  dsimp only
  split
  · simp
  · split
    · simp
    · split
      · simp
      · split <;> simp

/-- C4: for every positive axis length L, the vectorization selector returns
the first of the priority order 4, 2 that divides L and 1 otherwise, and in
particular maps 8 to 4, 6 to 2, 5 to 1 and 1 to 1. -/
theorem vectorize_priority_order (L : Nat) (h : 0 < L) :
    vectorization L = (if 4 ∣ L then 4 else if 2 ∣ L then 2 else 1) ∧
    vectorization 8 = 4 ∧ vectorization 6 = 2 ∧ vectorization 5 = 1 ∧
    vectorization 1 = 1 := by
  refine ⟨?_, by decide, by decide, by decide, by decide⟩
  by_cases h4 : L % 4 = 0
  · simp [vectorization, List.filter, h4, Nat.dvd_iff_mod_eq_zero]
  · by_cases h2 : L % 2 = 0
    · simp [vectorization, List.filter, Nat.dvd_iff_mod_eq_zero, h4, h2,
        beq_eq_false_iff_ne.mpr h4]
    · simp [vectorization, List.filter, Nat.dvd_iff_mod_eq_zero, h4, h2,
        beq_eq_false_iff_ne.mpr h4, beq_eq_false_iff_ne.mpr h2]

/-- C4 witness: the theorem applied at L = 8. -/
theorem vectorize_priority_order_witness :
    0 < 8 ∧
    (vectorization 8 = (if 4 ∣ 8 then 4 else if 2 ∣ 8 then 2 else 1) ∧
     vectorization 8 = 4 ∧ vectorization 6 = 2 ∧ vectorization 5 = 1 ∧
     vectorization 1 = 1) :=
  ⟨by decide, vectorize_priority_order 8 (by decide)⟩

/-- C7: for every element tag and every host scalar, each constant
constructor returns a constant whose tag equals the element's tag, never the
tag of the host literal's native type. -/
theorem constant_tag_matches_elem {F : Type} (C : F64Cast F) (e : Elem)
    (vf : F) (vi : I64) (vu : U64) (vb : HostBool) :
    (e.constant_from_f64 C vf).tag = e ∧ (e.constant_from_i64 C vi).tag = e ∧
    (e.constant_from_u64 C vu).tag = e ∧ (e.constant_from_bool C vb).tag = e := by
  cases e <;>
    simp [Elem.constant_from_f64, Elem.constant_from_i64, Elem.constant_from_u64,
      Elem.constant_from_bool, Variable.tag, ConstantScalarValue.tag]

/-- C10: for the Bool element, constant_from_i64 uses the strict test
val > 0, so every negative value (such as -1) yields false even though it is
nonzero. -/
theorem bool_constant_strict_gt_zero {F : Type} (C : F64Cast F) (v : I64) :
    Elem.Bool.constant_from_i64 C v =
      Variable.ConstantScalar (ConstantScalarValue.Bool (decide (v > 0))) ∧
    Elem.Bool.constant_from_i64 C (-1) =
      Variable.ConstantScalar (ConstantScalarValue.Bool false) ∧
    (-1 : I64) ≠ 0 := by
  refine ⟨rfl, rfl, by decide⟩

/-- C8: every convolution launch error variant has the debug rendering given
by the source's Debug impl, and converting any variant into the autotune
failure report yields exactly AutotuneError.Unknown of that rendering. -/
theorem conv_error_debug_autotune {M : Type} (mdbg : M → String) :
    (∀ e : ConvLaunchError M,
       ConvLaunchError.intoAutotune mdbg e =
         AutotuneError.Unknown (ConvLaunchError.debugFmt mdbg e)) ∧
    (∀ m : M, ConvLaunchError.debugFmt mdbg (ConvLaunchError.Matmul m) = mdbg m) ∧
    (∀ g : Nat, ConvLaunchError.debugFmt mdbg (ConvLaunchError.Groups g) =
       "Unable to launch matmul because groups must be one, is actually " ++
         toString g ++ "\n") ∧
    ConvLaunchError.debugFmt mdbg ConvLaunchError.CubeCountTooLarge =
      "The cube count is larger than the max supported." ∧
    ConvLaunchError.debugFmt mdbg ConvLaunchError.Unknown = "Unknown" :=
  ⟨fun _ => rfl, fun _ => rfl, fun _ => rfl, rfl, rfl⟩

/-- C6: the transposition check of matmul_tiling_2d_ref_no_check is false on
Contiguous, the transposed flag on MildlyPermuted, and the panic branch on
HighlyPermuted; when both operands classify as non-HighlyPermuted the panic
is unreachable. -/
theorem is_transposed_post_normalization :
    no_check_check_layout MatrixLayout.Contiguous = some false ∧
    (∀ t b, no_check_check_layout (MatrixLayout.MildlyPermuted t b) = some t) ∧
    no_check_check_layout MatrixLayout.HighlyPermuted = none ∧
    (∀ (env : Env) (lhs rhs out : TensorHandleRef) (cfg : Tiling2dConfig),
      env.matrixLayout lhs.strides ≠ MatrixLayout.HighlyPermuted →
      env.matrixLayout rhs.strides ≠ MatrixLayout.HighlyPermuted →
      (matmul_tiling_2d_ref_no_check env lhs rhs out cfg).1 ≠
        PlanOutcome.panic "Can\x27t run on highly permuted tensor") := by
  refine ⟨rfl, fun t b => rfl, rfl, ?_⟩
  intro env lhs rhs out cfg hl hr
  unfold matmul_tiling_2d_ref_no_check
  dsimp only
  split
  · simp
  · rcases el : env.matrixLayout lhs.strides with _ | ⟨t1, b1⟩ | _ <;>
      [skip; skip; exact absurd el hl] <;>
    rcases er : env.matrixLayout rhs.strides with _ | ⟨t2, b2⟩ | _ <;>
      [skip; skip; exact absurd er hr; skip; skip; exact absurd er hr] <;>
    simp [no_check_check_layout, el, er] <;> split <;> simp

/-- C6 witness: the unreachability conjunct applied to the fixture
environment and two usable operands. -/
theorem is_transposed_post_normalization_witness :
    (matmul_tiling_2d_ref_no_check envFix tLhsT tRhs tOut cfg0).1 ≠
      PlanOutcome.panic "Can\x27t run on highly permuted tensor" :=
  is_transposed_post_normalization.2.2.2 envFix tLhsT tRhs tOut cfg0
    (by decide) (by decide)

/-- C1: under the shared-memory precondition, matmul_tiling_2d_ref decides
layout repair per operand independently: each operand classified Contiguous
or MildlyPermuted reaches the inner planner unmodified and each operand
classified HighlyPermuted is replaced by its into_contiguous copy, so the
call equals the inner planner on the two repaired operands (all four
keep/copy combinations, determined solely by the two classifications). -/
theorem layout_repair_independent_per_operand (env : Env)
    (lhs rhs out : TensorHandleRef) (cfg : Tiling2dConfig)
    (h : env.elemSize * cfg.block_size_k * max cfg.block_size_m cfg.block_size_n ≤
      env.maxSharedMemorySize) :
    matmul_tiling_2d_ref env lhs rhs out cfg =
      ((matmul_tiling_2d_ref_no_check env (repairOperand env lhs) (repairOperand env rhs)
          out cfg).1,
       [LaunchEffect.classify lhs.strides, LaunchEffect.classify rhs.strides] ++
         normalizeTrace env lhs ++ normalizeTrace env rhs ++
         (matmul_tiling_2d_ref_no_check env (repairOperand env lhs) (repairOperand env rhs)
            out cfg).2) := by
  unfold matmul_tiling_2d_ref repairOperand normalizeTrace ref_check_layout
  rw [if_pos h]
  rcases el : env.matrixLayout lhs.strides <;>
    rcases er : env.matrixLayout rhs.strides <;>
      simp [el, er]

/-- C1 witness: the theorem applied to the fixture environment with a
HighlyPermuted lhs and a usable rhs (the copy/keep combination). -/
theorem layout_repair_independent_per_operand_witness :
    envFix.elemSize * cfg0.block_size_k * max cfg0.block_size_m cfg0.block_size_n ≤
      envFix.maxSharedMemorySize ∧
    matmul_tiling_2d_ref envFix tBad tRhs tOut cfg0 =
      ((matmul_tiling_2d_ref_no_check envFix (repairOperand envFix tBad)
          (repairOperand envFix tRhs) tOut cfg0).1,
       [LaunchEffect.classify tBad.strides, LaunchEffect.classify tRhs.strides] ++
         normalizeTrace envFix tBad ++ normalizeTrace envFix tRhs ++
         (matmul_tiling_2d_ref_no_check envFix (repairOperand envFix tBad)
            (repairOperand envFix tRhs) tOut cfg0).2) :=
  ⟨by decide, layout_repair_independent_per_operand envFix tBad tRhs tOut cfg0 (by decide)⟩

/-- C2: matmul_tiling_2d_ref checks the shared-memory resource precondition
first: when violated it aborts with the assertion panic before any
classification, normalization or dispatch (empty effect trace), and when the
precondition holds that abort never occurs. -/
theorem shared_memory_precondition_first (env : Env)
    (lhs rhs out : TensorHandleRef) (cfg : Tiling2dConfig) :
    (¬ env.elemSize * cfg.block_size_k * max cfg.block_size_m cfg.block_size_n ≤
        env.maxSharedMemorySize →
      matmul_tiling_2d_ref env lhs rhs out cfg =
        (PlanOutcome.panic "Shared memory limit will be busted. ",
         ([] : List LaunchEffect))) ∧
    (env.elemSize * cfg.block_size_k * max cfg.block_size_m cfg.block_size_n ≤
        env.maxSharedMemorySize →
      (matmul_tiling_2d_ref env lhs rhs out cfg).1 ≠
        PlanOutcome.panic "Shared memory limit will be busted. ") := by
  constructor
  · intro hno
    unfold matmul_tiling_2d_ref
    rw [if_neg hno]
  · intro hyes
    unfold matmul_tiling_2d_ref
    rw [if_pos hyes]
    dsimp only
    cases h1 : ref_check_layout env lhs <;> cases h2 : ref_check_layout env rhs <;>
      simp only [h1, h2] <;> exact no_check_outcome_ne_shared_panic env _ _ out cfg

/-- C2 witness: the abort conjunct applied to the fixture environment with a
too-small shared memory capacity. -/
theorem shared_memory_precondition_first_witness :
    matmul_tiling_2d_ref envSmallMem tLhs tRhs tOut cfg0 =
      (PlanOutcome.panic "Shared memory limit will be busted. ",
       ([] : List LaunchEffect)) :=
  (shared_memory_precondition_first envSmallMem tLhs tRhs tOut cfg0).1 (by decide)

/-- C3: on the dispatch path of matmul_tiling_2d_ref_no_check, the per-
operand vectorization widths are exactly vectorize(m) for a transposed lhs
and 1 otherwise, vectorize(n) for a non-transposed rhs and 1 otherwise, and
vectorize(n) for the output, with m = lhs.shape[rank-2] and
n = rhs.shape[rank-1]. -/
theorem vectorization_assignment (env : Env) (lhs rhs out : TensorHandleRef)
    (cfg : Tiling2dConfig) (lt rt : Bool)
    (hrank : ¬ (lhs.strides.length < 2 ∨
      lhs.shape.length ≤ lhs.strides.length - 2 ∨
      lhs.shape.length ≤ lhs.strides.length - 1 ∨
      rhs.shape.length ≤ lhs.strides.length - 1))
    (hl : no_check_check_layout (env.matrixLayout lhs.strides) = some lt)
    (hr : no_check_check_layout (env.matrixLayout rhs.strides) = some rt)
    (hex : (match env.tiling2dCubeCount out.shape cfg with
            | CubeCount.Static x y z =>
                decide (x > env.maxCubeCount.1) || decide (y > env.maxCubeCount.2.1) ||
                  decide (z > env.maxCubeCount.2.2)
            | CubeCount.Dynamic => false) = false) :
    matmul_tiling_2d_ref_no_check env lhs rhs out cfg =
      (PlanOutcome.ok,
       [LaunchEffect.classify lhs.strides, LaunchEffect.classify rhs.strides,
        LaunchEffect.launch (env.tiling2dCubeCount out.shape cfg) (env.tiling2dCubeDim cfg)
          (TensorArg.from_raw_parts lhs.handle lhs.strides lhs.shape
            (if lt then vectorization (lhs.shape.getD (lhs.strides.length - 2) 0) else 1))
          (TensorArg.from_raw_parts rhs.handle rhs.strides rhs.shape
            (if rt then 1 else vectorization (rhs.shape.getD (lhs.strides.length - 1) 0)))
          (TensorArg.from_raw_parts out.handle out.strides out.shape
            (vectorization (rhs.shape.getD (lhs.strides.length - 1) 0)))
          (CubeTiling2dConfig.new cfg (lhs.shape.getD (lhs.strides.length - 2) 0)
            (lhs.shape.getD (lhs.strides.length - 1) 0)
            (rhs.shape.getD (lhs.strides.length - 1) 0) lt rt)]) := by
  unfold matmul_tiling_2d_ref_no_check
  rw [if_neg hrank]
  dsimp only
  rw [hl, hr]
  dsimp only
  rw [hex]
  cases lt <;> cases rt <;> rfl

/-- C3 witness: the theorem applied to the fixture environment with a
transposed lhs and a non-transposed rhs. -/
theorem vectorization_assignment_witness :
    matmul_tiling_2d_ref_no_check envFix tLhsT tRhs tOut cfg0 =
      (PlanOutcome.ok,
       [LaunchEffect.classify tLhsT.strides, LaunchEffect.classify tRhs.strides,
        LaunchEffect.launch (envFix.tiling2dCubeCount tOut.shape cfg0)
          (envFix.tiling2dCubeDim cfg0)
          (TensorArg.from_raw_parts tLhsT.handle tLhsT.strides tLhsT.shape
            (if true then vectorization (tLhsT.shape.getD (tLhsT.strides.length - 2) 0) else 1))
          (TensorArg.from_raw_parts tRhs.handle tRhs.strides tRhs.shape
            (if false then 1 else vectorization (tRhs.shape.getD (tLhsT.strides.length - 1) 0)))
          (TensorArg.from_raw_parts tOut.handle tOut.strides tOut.shape
            (vectorization (tRhs.shape.getD (tLhsT.strides.length - 1) 0)))
          (CubeTiling2dConfig.new cfg0 (tLhsT.shape.getD (tLhsT.strides.length - 2) 0)
            (tLhsT.shape.getD (tLhsT.strides.length - 1) 0)
            (tRhs.shape.getD (tLhsT.strides.length - 1) 0) true false)]) :=
  vectorization_assignment envFix tLhsT tRhs tOut cfg0 true false
    (by decide) (by decide) (by decide) (by decide)

/-- C5: when the computed cube count is a static 3-tuple with an axis above
the hardware per-axis maximum, matmul_tiling_2d_ref_no_check returns the
structured Unavailable(CubeCountTooBig) error carrying the offending count
and its effect trace contains no dispatch through the launch primitive. -/
theorem cube_count_too_big_no_dispatch (env : Env) (lhs rhs out : TensorHandleRef)
    (cfg : Tiling2dConfig) (lt rt : Bool) (x y z : Nat)
    (hrank : ¬ (lhs.strides.length < 2 ∨
      lhs.shape.length ≤ lhs.strides.length - 2 ∨
      lhs.shape.length ≤ lhs.strides.length - 1 ∨
      rhs.shape.length ≤ lhs.strides.length - 1))
    (hl : no_check_check_layout (env.matrixLayout lhs.strides) = some lt)
    (hr : no_check_check_layout (env.matrixLayout rhs.strides) = some rt)
    (hc : env.tiling2dCubeCount out.shape cfg = CubeCount.Static x y z)
    (hbig : x > env.maxCubeCount.1 ∨ y > env.maxCubeCount.2.1 ∨ z > env.maxCubeCount.2.2) :
    matmul_tiling_2d_ref_no_check env lhs rhs out cfg =
      (PlanOutcome.err (MatmulLaunchError.Unavailable
        (MatmulAvailabilityError.CubeCountTooBig (CubeCount.Static x y z))),
       [LaunchEffect.classify lhs.strides, LaunchEffect.classify rhs.strides]) ∧
    ∀ eff ∈ (matmul_tiling_2d_ref_no_check env lhs rhs out cfg).2,
      eff.isLaunch = false := by
  have hmain : matmul_tiling_2d_ref_no_check env lhs rhs out cfg =
      (PlanOutcome.err (MatmulLaunchError.Unavailable
        (MatmulAvailabilityError.CubeCountTooBig (CubeCount.Static x y z))),
       [LaunchEffect.classify lhs.strides, LaunchEffect.classify rhs.strides]) := by
    unfold matmul_tiling_2d_ref_no_check
    rw [if_neg hrank]
    dsimp only
    rw [hl, hr]
    dsimp only
    rw [hc]
    dsimp only
    have hexc : (decide (x > env.maxCubeCount.1) || decide (y > env.maxCubeCount.2.1) ||
        decide (z > env.maxCubeCount.2.2)) = true := by
      rcases hbig with hb | hb | hb <;> simp [hb]
    rw [hexc]
    cases lt <;> cases rt <;> rfl
  refine ⟨hmain, ?_⟩
  rw [hmain]
  intro eff heff
  simp only [List.mem_cons, List.not_mem_nil, or_false] at heff
  rcases heff with h | h <;> subst h <;> rfl

/-- C5 witness: the theorem applied to the fixture environment whose cube
count 200x1x1 exceeds the 100-per-axis hardware maximum. -/
theorem cube_count_too_big_no_dispatch_witness :
    matmul_tiling_2d_ref_no_check envBigGrid tLhs tRhs tOut cfg0 =
      (PlanOutcome.err (MatmulLaunchError.Unavailable
        (MatmulAvailabilityError.CubeCountTooBig (CubeCount.Static 200 1 1))),
       [LaunchEffect.classify tLhs.strides, LaunchEffect.classify tRhs.strides]) ∧
    ∀ eff ∈ (matmul_tiling_2d_ref_no_check envBigGrid tLhs tRhs tOut cfg0).2,
      eff.isLaunch = false :=
  cube_count_too_big_no_dispatch envBigGrid tLhs tRhs tOut cfg0 false false 200 1 1
    (by decide) (by decide) (by decide) (by decide) (by decide)

/-- Helper: Location codec roundtrip with any remaining stream. -/
theorem decLocation_enc (l : Location) (rest : List Tok) :
    decLocation (encLocation l ++ rest) = some (l, rest) := by
  cases l <;> rfl

/-- Helper: Visibility codec roundtrip. -/
theorem decVisibility_enc (v : Visibility) (rest : List Tok) :
    decVisibility (encVisibility v ++ rest) = some (v, rest) := by
  cases v <;> rfl

/-- Helper: FloatKind codec roundtrip. -/
theorem decFloatKind_enc (k : FloatKind) (rest : List Tok) :
    decFloatKind (encFloatKind k ++ rest) = some (k, rest) := by
  cases k <;> rfl

/-- Helper: IntKind codec roundtrip. -/
theorem decIntKind_enc (k : IntKind) (rest : List Tok) :
    decIntKind (encIntKind k ++ rest) = some (k, rest) := by
  cases k <;> rfl

/-- Helper: Elem codec roundtrip. -/
theorem decElem_enc (e : Elem) (rest : List Tok) :
    decElem (encElem e ++ rest) = some (e, rest) := by
  cases e <;> simp [encElem, decElem, decFloatKind_enc, decIntKind_enc]

/-- Helper: Item codec roundtrip. -/
theorem decItem_enc (i : Item) (rest : List Tok) :
    decItem (encItem i ++ rest) = some (i, rest) := by
  obtain ⟨e, v⟩ := i
  simp [encItem, decItem, List.append_assoc, decElem_enc]

/-- Helper: optional-size codec roundtrip. -/
theorem decOptNat_enc (s : Option Nat) (rest : List Tok) :
    decOptNat (encOptNat s ++ rest) = some (s, rest) := by
  cases s <;> rfl

/-- Helper: Binding codec roundtrip. -/
theorem decBinding_enc (b : Binding) (rest : List Tok) :
    decBinding (encBinding b ++ rest) = some (b, rest) := by
  obtain ⟨loc, vis, it, sz⟩ := b
  simp [encBinding, decBinding, List.append_assoc, decLocation_enc, decVisibility_enc,
    decItem_enc, decOptNat_enc]

/-- Helper: named-binding codec roundtrip. -/
theorem decNamed_enc (p : String × Binding) (rest : List Tok) :
    decNamed (encNamed p ++ rest) = some (p, rest) := by
  obtain ⟨s, b⟩ := p
  simp [encNamed, decNamed, decBinding_enc]

/-- Helper: fixed-count list codec roundtrip. -/
theorem decListN_enc {α : Type} (dec : List Tok → Option (α × List Tok))
    (enc : α → List Tok) (h : ∀ a rest, dec (enc a ++ rest) = some (a, rest)) :
    ∀ (l : List α) (rest : List Tok),
      decListN dec l.length (encListElems enc l ++ rest) = some (l, rest) := by
  intro l
  induction l with
  | nil => intro rest; rfl
  | cons a l ih =>
      intro rest
      simp [encListElems, decListN, List.append_assoc, h, ih]

/-- Helper: length-prefixed list codec roundtrip. -/
theorem decList_enc {α : Type} (dec : List Tok → Option (α × List Tok))
    (enc : α → List Tok) (h : ∀ a rest, dec (enc a ++ rest) = some (a, rest))
    (l : List α) (rest : List Tok) :
    decList dec (encList enc l ++ rest) = some (l, rest) := by
  simp [encList, decList, decListN_enc dec enc h]

/-- Helper: CubeDim codec roundtrip. -/
theorem decCubeDim_enc (d : CubeDim) (rest : List Tok) :
    decCubeDim (encCubeDim d ++ rest) = some (d, rest) := by
  obtain ⟨x, y, z⟩ := d
  rfl

/-- Helper: KernelDefinition codec roundtrip with any remaining stream, given
a roundtripping scope codec. -/
theorem decKernelDefinition_enc {S : Type} (senc : S → List Tok)
    (sdec : List Tok → Option (S × List Tok))
    (hS : ∀ s rest, sdec (senc s ++ rest) = some (s, rest))
    (d : KernelDefinition S) (rest : List Tok) :
    decKernelDefinition sdec (encKernelDefinition senc d ++ rest) = some (d, rest) := by
  obtain ⟨ins, outs, nm, cd, b⟩ := d
  simp [encKernelDefinition, decKernelDefinition, List.append_assoc,
    decList_enc decBinding encBinding decBinding_enc,
    decList_enc decNamed encNamed decNamed_enc,
    decCubeDim_enc, hS]

/-- C9: for every kernel definition containing at least one binding of each
location/visibility combination and at least one named binding, decoding the
encoded form restores the definition field by field (with the whole stream
consumed), given a roundtripping codec for the opaque body scope. -/
theorem kernel_definition_roundtrip {S : Type} (senc : S → List Tok)
    (sdec : List Tok → Option (S × List Tok))
    (hS : ∀ s rest, sdec (senc s ++ rest) = some (s, rest))
    (d : KernelDefinition S)
    (h1 : ∃ b ∈ d.inputs ++ d.outputs ++ d.named.map Prod.snd,
      b.location = Location.Storage ∧ b.visibility = Visibility.Read)
    (h2 : ∃ b ∈ d.inputs ++ d.outputs ++ d.named.map Prod.snd,
      b.location = Location.Storage ∧ b.visibility = Visibility.ReadWrite)
    (h3 : ∃ b ∈ d.inputs ++ d.outputs ++ d.named.map Prod.snd,
      b.location = Location.Cube ∧ b.visibility = Visibility.Read)
    (h4 : ∃ b ∈ d.inputs ++ d.outputs ++ d.named.map Prod.snd,
      b.location = Location.Cube ∧ b.visibility = Visibility.ReadWrite)
    (h5 : d.named ≠ []) :
    decKernelDefinition sdec (encKernelDefinition senc d) = some (d, []) := by
  have := decKernelDefinition_enc senc sdec hS d []
  simpa using this

/-- C9 witness: the theorem applied to the fixture kernel definition with one
binding of each location/visibility combination and one named binding, using
the trivial codec for the unit scope. -/
theorem kernel_definition_roundtrip_witness :
    (∃ b ∈ dFix.inputs ++ dFix.outputs ++ dFix.named.map Prod.snd,
      b.location = Location.Storage ∧ b.visibility = Visibility.Read) ∧
    (∃ b ∈ dFix.inputs ++ dFix.outputs ++ dFix.named.map Prod.snd,
      b.location = Location.Storage ∧ b.visibility = Visibility.ReadWrite) ∧
    (∃ b ∈ dFix.inputs ++ dFix.outputs ++ dFix.named.map Prod.snd,
      b.location = Location.Cube ∧ b.visibility = Visibility.Read) ∧
    (∃ b ∈ dFix.inputs ++ dFix.outputs ++ dFix.named.map Prod.snd,
      b.location = Location.Cube ∧ b.visibility = Visibility.ReadWrite) ∧
    dFix.named ≠ [] ∧
    decKernelDefinition (fun r => some ((), r))
        (encKernelDefinition (fun _ => ([] : List Tok)) dFix) = some (dFix, []) :=
  ⟨by decide, by decide, by decide, by decide, by decide,
   kernel_definition_roundtrip (fun _ => ([] : List Tok)) (fun r => some ((), r))
     (fun _ _ => rfl) dFix (by decide) (by decide) (by decide) (by decide) (by decide)⟩

/-- C7 witness: the theorem applied to the signed-integer element at concrete
host scalars over the integer-carrier f64 fixture. -/
theorem constant_tag_matches_elem_witness :
    ((Elem.Int IntKind.I64).constant_from_f64 CFix 5).tag = Elem.Int IntKind.I64 ∧
    ((Elem.Int IntKind.I64).constant_from_i64 CFix 7).tag = Elem.Int IntKind.I64 ∧
    ((Elem.Int IntKind.I64).constant_from_u64 CFix 9).tag = Elem.Int IntKind.I64 ∧
    ((Elem.Int IntKind.I64).constant_from_bool CFix true).tag = Elem.Int IntKind.I64 :=
  constant_tag_matches_elem CFix (Elem.Int IntKind.I64) 5 7 9 true

/-- C8 witness: the conversion conjunct applied to the Groups variant at
group count 3 with the fixture matmul debug rendering. -/
theorem conv_error_debug_autotune_witness :
    ConvLaunchError.intoAutotune mdbgFix (ConvLaunchError.Groups 3) =
      AutotuneError.Unknown (ConvLaunchError.debugFmt mdbgFix (ConvLaunchError.Groups 3)) :=
  (conv_error_debug_autotune mdbgFix).1 (ConvLaunchError.Groups 3)

/-- C10 witness: the theorem applied at v = -1 over the integer-carrier f64
fixture. -/
theorem bool_constant_strict_gt_zero_witness :
    Elem.Bool.constant_from_i64 CFix (-1) =
      Variable.ConstantScalar (ConstantScalarValue.Bool (decide ((-1 : I64) > 0))) ∧
    Elem.Bool.constant_from_i64 CFix (-1) =
      Variable.ConstantScalar (ConstantScalarValue.Bool false) ∧
    (-1 : I64) ≠ 0 :=
  bool_constant_strict_gt_zero CFix (-1)
